import Mathlib

/-!
Shallow embedding of the negotiation and session-lifecycle state machine of
the syncmeet repository, translated from src/hooks/useWebRTC.ts together with
the envelope vocabulary of src/services/signaling.ts.

Modelling notes.
* Peer identifiers, room identifiers and display names are strings; the
  JavaScript comparison myId > remoteId is string comparison, embedded as the
  String order of Lean.
* The Media Engine (RTCPeerConnection and navigator.mediaDevices) is external
  to the repository; its session descriptions are modelled as opaque values
  stamped with a running counter, since createOffer and createAnswer return a
  freshly created description on every call, and setLocalDescription and
  setRemoteDescription move the signaling state exactly as the WebRTC
  state machine prescribes (offer: stable to have-local-offer resp.
  have-remote-offer; answer: back to stable; rollback: back to stable).
* Effects on the relay (signaling.sendOffer, sendAnswer, sendMediaStatus,
  sendScreenShareStatus, joinRoom) are recorded in an append-only trace of
  envelopes, and applying an ICE candidate to the peer connection is recorded
  in an append-only trace of applied candidates.
-/

/-- Role assigned by the tie breaker in handleJoin (spec section 4.1). -/
inductive Role
  | Caller
  | Listener
deriving DecidableEq, Repr

/-- Translation of the tie breaker of useWebRTC.ts line 372:
`const isCaller = myId > remoteId;` — string comparison, the larger
identifier becomes the Caller. -/
def decideRole (myId remoteId : String) : Role :=
  if myId > remoteId then Role.Caller else Role.Listener

/-- Kind of a session description (offer or answer). -/
inductive DescKind
  | offer
  | answer
deriving DecidableEq, Repr

/-- Opaque session description produced by the Media Engine; the nonce is a
running counter distinguishing successive createOffer / createAnswer calls. -/
structure Desc where
  kind : DescKind
  nonce : Nat
deriving DecidableEq, Repr

/-- RTCPeerConnection.signalingState, restricted to the values the hook
inspects. -/
inductive SigState
  | stable
  | haveLocalOffer
  | haveRemoteOffer
deriving DecidableEq, Repr

/-- RTCPeerConnection.iceConnectionState values. -/
inductive IceState
  | brandNew
  | checking
  | connected
  | completed
  | disconnected
  | failed
  | closed
deriving DecidableEq, Repr

/-- A local media track (camera, microphone or screen capture); only the
enabled flag is observable to the hook besides identity. -/
structure Track where
  id : Nat
  enabled : Bool
deriving DecidableEq, Repr

/-- The RTCPeerConnection as the hook observes it: signaling and ICE
connection sub-states, the current local and remote descriptions, the tracks
currently attached to the audio and video senders, and the maxBitrate encoding
parameter of the video sender. -/
structure PC where
  signalingState : SigState
  iceConnectionState : IceState
  localDescription : Option Desc
  remoteDescription : Option Desc
  audioSenderTrack : Option Track
  videoSenderTrack : Option Track
  videoSenderMaxBitrate : Option Nat
deriving DecidableEq, Repr

/-- Media kind carried by a media-status envelope. -/
inductive MediaKind
  | audio
  | video
deriving DecidableEq, Repr

/-- Outgoing envelopes published through the signaling service
(src/services/signaling.ts). -/
inductive Envelope
  | join (roomId name : String)
  | offer (roomId target : String) (d : Desc)
  | answer (roomId target : String) (d : Desc)
  | iceCandidate (roomId target : String) (c : Nat)
  | mediaStatus (roomId : String) (kind : MediaKind) (enabled : Bool)
  | screenShareStatus (roomId : String) (active : Bool)
deriving DecidableEq, Repr

/-- Connectivity candidates are opaque. -/
abbrev Candidate := Nat

/-- State of the useWebRTC hook: the refs and useState cells of
src/hooks/useWebRTC.ts, plus the two effect traces (envelopes published,
candidates applied to the peer connection). -/
structure HookState where
  pc : Option PC
  iceCandidatesQueue : List Candidate
  appliedCandidates : List Candidate
  localVideoTrack : Option Track
  localAudioTrack : Option Track
  screenTrack : Option Track
  isMicOn : Bool
  isCameraOn : Bool
  isScreenSharing : Bool
  remoteIsMicOn : Bool
  remoteIsCameraOn : Bool
  remoteIsScreenSharing : Bool
  remoteUserName : Option String
  remoteStreamPresent : Bool
  discoveryRunning : Bool
  isInRoom : Bool
  connectionState : IceState
  statusMessage : String
  sent : List Envelope
  descCounter : Nat
deriving DecidableEq, Repr

/-- Initial values of the useState cells and refs of the hook. -/
def initialHookState : HookState where
  pc := none
  iceCandidatesQueue := []
  appliedCandidates := []
  localVideoTrack := none
  localAudioTrack := none
  screenTrack := none
  isMicOn := true
  isCameraOn := true
  isScreenSharing := false
  remoteIsMicOn := true
  remoteIsCameraOn := true
  remoteIsScreenSharing := false
  remoteUserName := none
  remoteStreamPresent := false
  discoveryRunning := false
  isInRoom := false
  connectionState := IceState.brandNew
  statusMessage := ""
  sent := []
  descCounter := 0

/-- WebRTC setLocalDescription: an offer moves the signaling state to
have-local-offer, an answer back to stable. -/
def setLocalDescription (pc : PC) (d : Desc) : PC :=
  { pc with
    localDescription := some d
    signalingState :=
      match d.kind with
      | DescKind.offer => SigState.haveLocalOffer
      | DescKind.answer => SigState.stable }

/-- WebRTC setRemoteDescription: an offer moves the signaling state to
have-remote-offer, an answer back to stable. -/
def setRemoteDescription (pc : PC) (d : Desc) : PC :=
  { pc with
    remoteDescription := some d
    signalingState :=
      match d.kind with
      | DescKind.offer => SigState.haveRemoteOffer
      | DescKind.answer => SigState.stable }

/-- WebRTC setLocalDescription with a rollback description: discards the
pending local offer and returns to stable. -/
def rollbackLocal (pc : PC) : PC :=
  { pc with localDescription := none, signalingState := SigState.stable }

/-- Translation of createPeerConnection (useWebRTC.ts lines 98 to 160): if a
peer connection already exists it is returned unchanged, otherwise a fresh one
is created in state stable and ICE state new, with the current local tracks
attached as senders. -/
def ensurePC (s : HookState) : HookState :=
  match s.pc with
  | some _ => s
  | none =>
    { s with
      pc := some
        { signalingState := SigState.stable
          iceConnectionState := IceState.brandNew
          localDescription := none
          remoteDescription := none
          audioSenderTrack := s.localAudioTrack
          videoSenderTrack := s.localVideoTrack
          videoSenderMaxBitrate := none } }

/-- Value sent for the audio media-status announcement:
`localAudioTrack.current?.enabled ?? true` (useWebRTC.ts line 365). -/
def audioStatusValue (s : HookState) : Bool :=
  match s.localAudioTrack with
  | some t => t.enabled
  | none => true

/-- Value sent for the video media-status announcement:
`isScreenSharingRef.current ? true : (localVideoTrack.current?.enabled ?? true)`
(useWebRTC.ts line 366). -/
def videoStatusValue (s : HookState) : Bool :=
  if s.isScreenSharing then true
  else
    match s.localVideoTrack with
    | some t => t.enabled
    | none => true

/-- Translation of processIceQueue (useWebRTC.ts lines 63 to 77): if the peer
connection exists and has a remote description, the buffered candidates are
shifted off the front of the queue one by one and applied in that order, which
appends the whole queue, in order, to the trace of applied candidates and
leaves the queue empty; otherwise nothing happens. -/
def processIceQueue (s : HookState) : HookState :=
  match s.pc with
  | none => s
  | some pc =>
    if pc.remoteDescription.isSome then
      { s with
        appliedCandidates := s.appliedCandidates ++ s.iceCandidatesQueue
        iceCandidatesQueue := [] }
    else s

/-- Guard of the offer branch of handleJoin (useWebRTC.ts lines 377 to 379):
signaling state stable or have-local-offer, and ICE connection state neither
connected nor completed. -/
def canOffer (pc : PC) : Bool :=
  decide ((pc.signalingState = SigState.stable ∨
           pc.signalingState = SigState.haveLocalOffer) ∧
          pc.iceConnectionState ≠ IceState.connected ∧
          pc.iceConnectionState ≠ IceState.completed)

/-- Translation of handleJoin (useWebRTC.ts lines 354 to 392). The local
identifier myId is signaling.userId; the incoming envelope carries
payloadRoom, senderId and senderName. An offer is produced only on the Caller
side, and only when canOffer holds; createOffer returns a fresh description
stamped with the current counter. -/
def handleJoin (roomId myId payloadRoom senderId senderName : String)
    (s : HookState) : HookState :=
  if payloadRoom ≠ roomId then s
  else if senderId = myId then s
  else
    let s1 := { s with
      remoteUserName := some senderName
      statusMessage := "Connecting to peer..." }
    let s2 := { s1 with
      sent := s1.sent ++
        [Envelope.mediaStatus roomId MediaKind.audio (audioStatusValue s1),
         Envelope.mediaStatus roomId MediaKind.video (videoStatusValue s1),
         Envelope.screenShareStatus roomId s1.isScreenSharing] }
    if decideRole myId senderId = Role.Caller then
      let s3 := ensurePC s2
      match s3.pc with
      | none => s3
      | some pc =>
        if canOffer pc then
          let off : Desc := ⟨DescKind.offer, s3.descCounter⟩
          { s3 with
            descCounter := s3.descCounter + 1
            pc := some (setLocalDescription pc off)
            sent := s3.sent ++ [Envelope.offer roomId senderId off] }
        else s3
    else s2

/-- Translation of handleOffer (useWebRTC.ts lines 394 to 431). If the
signaling state is not stable (glare), the local description is rolled back
and the incoming offer applied in its place — with no role check; otherwise
the incoming offer is applied directly. Then the ICE queue is drained, an
answer is created, set locally and published. -/
def handleOffer (roomId payloadRoom senderId : String) (d : Desc)
    (s : HookState) : HookState :=
  if payloadRoom ≠ roomId then s
  else
    let s1 := { s with statusMessage := "Negotiating connection..." }
    let s2 :=
      if s1.remoteUserName = none then { s1 with remoteUserName := some "Peer" }
      else s1
    let s3 := { s2 with
      sent := s2.sent ++
        [Envelope.mediaStatus roomId MediaKind.audio (audioStatusValue s2),
         Envelope.mediaStatus roomId MediaKind.video (videoStatusValue s2)] }
    let s4 := ensurePC s3
    match s4.pc with
    | none => s4
    | some pc =>
      let pc2 :=
        if pc.signalingState ≠ SigState.stable then
          setRemoteDescription (rollbackLocal pc) d
        else setRemoteDescription pc d
      let s5 := processIceQueue { s4 with pc := some pc2 }
      let ans : Desc := ⟨DescKind.answer, s5.descCounter⟩
      let s6 := { s5 with descCounter := s5.descCounter + 1 }
      let s7 :=
        match s6.pc with
        | some pc3 => { s6 with pc := some (setLocalDescription pc3 ans) }
        | none => s6
      { s7 with sent := s7.sent ++ [Envelope.answer roomId senderId ans] }

/-- Translation of handleAnswer (useWebRTC.ts lines 433 to 446): the answer is
applied as remote description, and the ICE queue drained, only when the
signaling state is have-local-offer; in every other case the state is left
unchanged. -/
def handleAnswer (roomId payloadRoom : String) (d : Desc)
    (s : HookState) : HookState :=
  if payloadRoom ≠ roomId then s
  else
    match s.pc with
    | none => s
    | some pc =>
      if pc.signalingState = SigState.haveLocalOffer then
        processIceQueue { s with pc := some (setRemoteDescription pc d) }
      else s

/-- Translation of handleIceCandidate (useWebRTC.ts lines 448 to 460): if the
peer connection exists and has a remote description the candidate is applied
immediately, otherwise it is pushed onto the queue. -/
def handleIceCandidate (roomId payloadRoom : String) (c : Candidate)
    (s : HookState) : HookState :=
  if payloadRoom ≠ roomId then s
  else
    match s.pc with
    | some pc =>
      if pc.remoteDescription.isSome then
        { s with appliedCandidates := s.appliedCandidates ++ [c] }
      else { s with iceCandidatesQueue := s.iceCandidatesQueue ++ [c] }
    | none => { s with iceCandidatesQueue := s.iceCandidatesQueue ++ [c] }

/-- Translation of startDiscovery (useWebRTC.ts lines 162 to 177): announces
presence immediately and starts the heartbeat interval. -/
def startDiscovery (roomId userName : String) (s : HookState) : HookState :=
  { s with
    discoveryRunning := true
    statusMessage := "Searching for peer..."
    sent := s.sent ++ [Envelope.join roomId userName] }

/-- Translation of handleRemoteLeave (useWebRTC.ts lines 462 to 477): clears
the remote identity and stream, marks the connection disconnected, closes and
drops the peer connection, clears the candidate queue, and restarts discovery
when no discovery interval is running and the local participant is still in
the room. The remote media-status flags are not touched. -/
def handleRemoteLeave (roomId userName payloadRoom : String)
    (s : HookState) : HookState :=
  if payloadRoom ≠ roomId then s
  else
    let s1 := { s with
      remoteUserName := none
      remoteStreamPresent := false
      connectionState := IceState.disconnected
      statusMessage := "Peer left. Waiting..."
      pc := none
      iceCandidatesQueue := [] }
    if !s.discoveryRunning && s.isInRoom then startDiscovery roomId userName s1
    else s1

/-- Translation of toggleMic (useWebRTC.ts lines 286 to 293): only when a
local audio track exists, its enabled flag is set to the negation of isMicOn,
isMicOn follows, and an audio media-status envelope is published. -/
def toggleMic (roomId : String) (s : HookState) : HookState :=
  match s.localAudioTrack with
  | none => s
  | some t =>
    let enabled := !s.isMicOn
    { s with
      localAudioTrack := some { t with enabled := enabled }
      isMicOn := enabled
      sent := s.sent ++ [Envelope.mediaStatus roomId MediaKind.audio enabled] }

/-- Translation of toggleCamera (useWebRTC.ts lines 295 to 304): only when a
local video track exists, its enabled flag and isCameraOn are toggled; the
video media-status envelope is published only when screen sharing is not
active. -/
def toggleCamera (roomId : String) (s : HookState) : HookState :=
  match s.localVideoTrack with
  | none => s
  | some t =>
    let enabled := !s.isCameraOn
    let s1 := { s with
      localVideoTrack := some { t with enabled := enabled }
      isCameraOn := enabled }
    if s1.isScreenSharing then s1
    else
      { s1 with
        sent := s1.sent ++ [Envelope.mediaStatus roomId MediaKind.video enabled] }

/-- Translation of stopScreenSharing (useWebRTC.ts lines 306 to 322): stops
and drops the screen track, puts the camera track back on the video sender,
clears the screen-sharing flag, publishes screen-share-status false and the
camera track enabled state as video media-status. -/
def stopScreenSharing (roomId : String) (s : HookState) : HookState :=
  match s.screenTrack with
  | none => s
  | some _ =>
    let s1 := { s with screenTrack := none }
    let s2 :=
      match s1.pc, s1.localVideoTrack with
      | some pc, some vt =>
        if pc.videoSenderTrack.isSome then
          { s1 with pc := some { pc with videoSenderTrack := some vt } }
        else s1
      | _, _ => s1
    let s3 := { s2 with
      isScreenSharing := false
      sent := s2.sent ++ [Envelope.screenShareStatus roomId false] }
    match s3.localVideoTrack with
    | some vt =>
      { s3 with
        sent := s3.sent ++ [Envelope.mediaStatus roomId MediaKind.video vt.enabled] }
    | none => s3

/-- Translation of toggleScreenShare (useWebRTC.ts lines 324 to 349): when
already sharing it delegates to stopScreenSharing; otherwise the acquired
screen capture track (the successful getDisplayMedia result, passed as an
argument) replaces the track on the video sender, the screen-sharing flag is
set, and video media-status true plus screen-share-status true are published. -/
def toggleScreenShare (roomId : String) (screen : Track)
    (s : HookState) : HookState :=
  if s.isScreenSharing then stopScreenSharing roomId s
  else
    let s1 := { s with screenTrack := some screen }
    let s2 :=
      match s1.pc with
      | some pc =>
        if pc.videoSenderTrack.isSome then
          { s1 with pc := some { pc with videoSenderTrack := some screen } }
        else s1
      | none => s1
    { s2 with
      isScreenSharing := true
      sent := s2.sent ++
        [Envelope.mediaStatus roomId MediaKind.video true,
         Envelope.screenShareStatus roomId true] }

/-- Translation of the RTT to score mapping of the stats interval
(useWebRTC.ts lines 200 to 203): score starts at 4 and each threshold
exceeded lowers it. -/
def rttScore (rtt : ℚ) : Nat :=
  let score := 4
  let score := if rtt > 1/10 then 3 else score
  let score := if rtt > 3/10 then 2 else score
  if rtt > 5/10 then 1 else score

/-- Translation of the stats interval guard (useWebRTC.ts lines 188 to 191):
when the connection is not in ICE state connected the score is 0, otherwise
the RTT mapping applies. -/
def sampleScore (connected : Bool) (rtt : ℚ) : Nat :=
  if connected then rttScore rtt else 0

/-- Translation of the quality to maxBitrate mapping of updateBitrate
(useWebRTC.ts lines 88 to 94): none means no cap (quality 4 and above). -/
def maxBitrateForQuality (quality : Nat) : Option Nat :=
  let m : Option Nat := none
  let m := if quality = 3 then some 1500000 else m
  let m := if quality = 2 then some 500000 else m
  let m := if quality = 1 then some 250000 else m
  if quality = 0 then some 100000 else m

/-- Order on bitrate caps where none (no cap) is the top element. -/
def capLE (a b : Option Nat) : Bool :=
  match a, b with
  | _, none => true
  | none, some _ => false
  | some x, some y => decide (x ≤ y)

/-- Translation of updateBitrate (useWebRTC.ts lines 80 to 96): when a video
sender with a track exists, its maxBitrate encoding parameter is set from the
quality score; otherwise nothing happens. -/
def updateBitrate (pc : PC) (quality : Nat) : PC :=
  match pc.videoSenderTrack with
  | none => pc
  | some _ => { pc with videoSenderMaxBitrate := maxBitrateForQuality quality }

/-- A peer connection just created: stable, ICE state new, no descriptions,
no senders. -/
def pcBase : PC :=
  { signalingState := SigState.stable
    iceConnectionState := IceState.brandNew
    localDescription := none
    remoteDescription := none
    audioSenderTrack := none
    videoSenderTrack := none
    videoSenderMaxBitrate := none }

/-- Concrete camera track. -/
def camTrack : Track := ⟨1, true⟩

/-- Concrete microphone track. -/
def micTrack : Track := ⟨2, true⟩

/-- Concrete screen capture track. -/
def screenCap : Track := ⟨3, true⟩

/-- Concrete state of a Caller that has produced offer 0 and sits in
have-local-offer. -/
def c1State : HookState :=
  { initialHookState with
    isInRoom := true
    remoteUserName := some "A"
    pc := some
      { pcBase with
        signalingState := SigState.haveLocalOffer
        localDescription := some ⟨DescKind.offer, 0⟩ }
    descCounter := 1 }

/-- Concrete state right after acquiring local media, before any discovery. -/
def c2Start : HookState :=
  { initialHookState with
    isInRoom := true
    localAudioTrack := some micTrack
    localVideoTrack := some camTrack }

/-- Peer connection of Caller b after its first offer (nonce 0): signaling
state have-local-offer, camera and microphone attached as senders. -/
def c2MidPC : PC :=
  { pcBase with
    signalingState := SigState.haveLocalOffer
    localDescription := some ⟨DescKind.offer, 0⟩
    audioSenderTrack := some micTrack
    videoSenderTrack := some camTrack }

/-- Concrete state of Caller b after publishing its first offer (nonce 0) to
peer a: the next join announcement from a is a duplicate. -/
def c2Mid : HookState :=
  { c2Start with
    pc := some c2MidPC
    remoteUserName := some "A"
    descCounter := 1
    sent := [Envelope.offer "r" "a" ⟨DescKind.offer, 0⟩] }

/-- Concrete state whose peer connection has a remote description and whose
candidate queue holds two candidates. -/
def c4Rem : HookState :=
  { initialHookState with
    pc := some { pcBase with remoteDescription := some ⟨DescKind.offer, 0⟩ }
    iceCandidatesQueue := [3, 4] }

/-- Concrete state whose peer connection has no remote description. -/
def c4Buf : HookState :=
  { initialHookState with pc := some pcBase }

/-- Concrete state in have-local-offer with one buffered candidate. -/
def c5St : HookState :=
  { initialHookState with
    pc := some
      { pcBase with
        signalingState := SigState.haveLocalOffer
        localDescription := some ⟨DescKind.offer, 0⟩ }
    iceCandidatesQueue := [7] }

/-- Concrete mid-call state in which the remote peer has reported microphone
and camera off and screen sharing on. -/
def c6St : HookState :=
  { initialHookState with
    isInRoom := true
    remoteIsMicOn := false
    remoteIsCameraOn := false
    remoteIsScreenSharing := true
    remoteUserName := some "A"
    pc := some pcBase
    iceCandidatesQueue := [5] }

/-- Concrete connected state with camera and microphone tracks attached to
the senders. -/
def c8St : HookState :=
  { initialHookState with
    isInRoom := true
    localVideoTrack := some camTrack
    localAudioTrack := some micTrack
    pc := some
      { pcBase with
        videoSenderTrack := some camTrack
        audioSenderTrack := some micTrack } }

/-- Concrete state in the middle of a screen share. -/
def c9St : HookState :=
  { c8St with
    isScreenSharing := true
    screenTrack := some screenCap
    pc := some
      { pcBase with
        videoSenderTrack := some screenCap
        audioSenderTrack := some micTrack } }

/-- C3: for every pair of distinct identifiers the role decision is
deterministic (decideRole is a pure function of the two identifiers) and
complementary: the side whose identifier is larger in the lexicographic
string order is the Caller, the other side the Listener, so decideRole A B
and decideRole B A always disagree. -/
theorem C3_decideRole_complementary (A B : String) (h : A ≠ B) :
    (decideRole A B = Role.Caller ↔ B < A) ∧
    (decideRole B A = Role.Caller ↔ A < B) ∧
    (decideRole A B = Role.Caller ↔ decideRole B A = Role.Listener) ∧
    (decideRole A B = Role.Listener ↔ decideRole B A = Role.Caller) := by
  unfold decideRole
  rcases lt_trichotomy A B with hlt | heq | hgt
  · simp [gt_iff_lt, hlt, lt_asymm hlt]
  · exact absurd heq h
  · simp [gt_iff_lt, hgt, lt_asymm hgt]

/-- Witness for C3 at the identifier pair of the spec scenario. -/
theorem C3_decideRole_complementary_witness :
    (decideRole "bob" "alice" = Role.Caller ↔ "alice" < "bob") ∧
    (decideRole "alice" "bob" = Role.Caller ↔ "bob" < "alice") ∧
    (decideRole "bob" "alice" = Role.Caller ↔
      decideRole "alice" "bob" = Role.Listener) ∧
    (decideRole "bob" "alice" = Role.Listener ↔
      decideRole "alice" "bob" = Role.Caller) :=
  C3_decideRole_complementary "bob" "alice" (by decide)

/-- A candidate arriving while the peer connection has no remote description
is appended to the back of the queue and nothing else changes. -/
theorem handleIceCandidate_buffers (roomId : String) (c : Candidate)
    (s : HookState) (pc : PC) (hpc : s.pc = some pc)
    (hrd : pc.remoteDescription = none) :
    handleIceCandidate roomId roomId c s =
      { s with iceCandidatesQueue := s.iceCandidatesQueue ++ [c] } := by
  unfold handleIceCandidate
  simp [hpc, hrd]

/-- Folding a burst of candidates into a state with no remote description
appends them all, in arrival order, to the queue. -/
theorem handleIceCandidate_buffers_fold (roomId : String) (cs : List Candidate)
    (s : HookState) (pc : PC) (hpc : s.pc = some pc)
    (hrd : pc.remoteDescription = none) :
    cs.foldl (fun t c0 => handleIceCandidate roomId roomId c0 t) s =
      { s with iceCandidatesQueue := s.iceCandidatesQueue ++ cs } := by
  induction cs generalizing s with
  | nil => simp
  | cons c cs ih =>
    simp only [List.foldl_cons]
    rw [handleIceCandidate_buffers roomId c s pc hpc hrd,
      ih { s with iceCandidatesQueue := s.iceCandidatesQueue ++ [c] } hpc]
    simp

/-- C4: candidates arriving while the session has no remote description are
buffered in FIFO order with no other effect; once the peer connection has a
remote description, processIceQueue applies the whole buffer, in original
arrival order and exactly once, emptying the queue, and any further candidate
is applied immediately without touching the queue. -/
theorem C4_candidate_buffer_fifo (roomId : String) (s : HookState) (pc : PC)
    (c : Candidate) (cs : List Candidate) (hpc : s.pc = some pc) :
    (pc.remoteDescription = none →
      cs.foldl (fun t c0 => handleIceCandidate roomId roomId c0 t) s =
        { s with iceCandidatesQueue := s.iceCandidatesQueue ++ cs }) ∧
    (pc.remoteDescription.isSome = true →
      processIceQueue s =
        { s with
          appliedCandidates := s.appliedCandidates ++ s.iceCandidatesQueue
          iceCandidatesQueue := [] } ∧
      handleIceCandidate roomId roomId c s =
        { s with appliedCandidates := s.appliedCandidates ++ [c] }) := by
  constructor
  · intro hrd
    exact handleIceCandidate_buffers_fold roomId cs s pc hpc hrd
  · intro hrd
    constructor
    · unfold processIceQueue
      simp [hpc, hrd]
    · unfold handleIceCandidate
      simp [hpc, hrd]

/-- Witness for C4: with two buffered candidates and a remote description
present, the drain applies both in order and empties the queue, and a fresh
candidate is applied immediately. -/
theorem C4_candidate_buffer_fifo_witness :
    ([3, 4].foldl (fun t c0 => handleIceCandidate "r" "r" c0 t) c4Buf =
      { c4Buf with
        iceCandidatesQueue := c4Buf.iceCandidatesQueue ++ [3, 4] }) ∧
    (processIceQueue c4Rem =
      { c4Rem with
        appliedCandidates := c4Rem.appliedCandidates ++ c4Rem.iceCandidatesQueue
        iceCandidatesQueue := [] } ∧
    handleIceCandidate "r" "r" 9 c4Rem =
      { c4Rem with appliedCandidates := c4Rem.appliedCandidates ++ [9] }) :=
  ⟨(C4_candidate_buffer_fifo "r" c4Buf pcBase 9 [3, 4] rfl).1 rfl,
   (C4_candidate_buffer_fifo "r" c4Rem
    { pcBase with remoteDescription := some ⟨DescKind.offer, 0⟩ } 9 [] rfl).2 rfl⟩

/-- C5: an answer received while the signaling sub-state is have-local-offer
is applied as the remote description, moving the session to stable (and then
the candidate queue is drained); an answer received in any other sub-state,
or with no peer connection at all, leaves the state completely unchanged. -/
theorem C5_answer_only_in_have_local_offer (roomId : String) (d : Desc)
    (s : HookState) (hk : d.kind = DescKind.answer) :
    (∀ pc, s.pc = some pc → pc.signalingState = SigState.haveLocalOffer →
      handleAnswer roomId roomId d s =
        processIceQueue
          { s with pc := some ({ pc with
              remoteDescription := some d
              signalingState := SigState.stable }) } ∧
      (handleAnswer roomId roomId d s).pc =
        some { pc with
               remoteDescription := some d
               signalingState := SigState.stable }) ∧
    (∀ pc, s.pc = some pc → pc.signalingState ≠ SigState.haveLocalOffer →
      handleAnswer roomId roomId d s = s) ∧
    (s.pc = none → handleAnswer roomId roomId d s = s) := by
  refine ⟨?_, ?_, ?_⟩
  · intro pc hpc hs
    have hset : setRemoteDescription pc d =
        { pc with
          remoteDescription := some d
          signalingState := SigState.stable } := by
      unfold setRemoteDescription
      rw [hk]
    constructor
    · unfold handleAnswer
      simp [hpc, hs, hset]
    · unfold handleAnswer
      simp [hpc, hs, hset, processIceQueue]
  · intro pc hpc hs
    unfold handleAnswer
    simp [hpc, hs]
  · intro hpc
    unfold handleAnswer
    simp [hpc]

/-- Witness for C5: in the concrete have-local-offer state the answer with
nonce 5 is applied and the session reaches stable. -/
theorem C5_answer_only_in_have_local_offer_witness :
    handleAnswer "r" "r" ⟨DescKind.answer, 5⟩ c5St =
      processIceQueue
        { c5St with pc := some ({ pcBase with
            signalingState := SigState.stable
            localDescription := some ⟨DescKind.offer, 0⟩
            remoteDescription := some ⟨DescKind.answer, 5⟩ }) } ∧
    (handleAnswer "r" "r" ⟨DescKind.answer, 5⟩ c5St).pc =
      some
        { pcBase with
          signalingState := SigState.stable
          localDescription := some ⟨DescKind.offer, 0⟩
          remoteDescription := some ⟨DescKind.answer, 5⟩ } :=
  (C5_answer_only_in_have_local_offer "r" ⟨DescKind.answer, 5⟩ c5St rfl).1
    { pcBase with
      signalingState := SigState.haveLocalOffer
      localDescription := some ⟨DescKind.offer, 0⟩ } rfl rfl

/-- In the lexicographic string order, a is below b. -/
theorem str_a_lt_b : ("a" : String) < "b" := by
  norm_num
  decide

/-- The concrete tie break: identifier b is larger than a, so peer b is the
Caller towards peer a. -/
theorem decideRole_b_a_caller : decideRole "b" "a" = Role.Caller := by
  unfold decideRole
  exact if_pos str_a_lt_b

/-- Evaluation of handleJoin on the Caller side when an offer may be sent:
the peer identity and status are recorded, the three media-status
announcements are published, and a fresh offer (stamped with the current
description counter) is created, set as local description and published. -/
theorem handleJoin_reoffer_eq (roomId myId senderId senderName : String)
    (s : HookState) (pc : PC)
    (hself : senderId ≠ myId)
    (hrole : decideRole myId senderId = Role.Caller)
    (hpc : s.pc = some pc)
    (hcan : canOffer pc = true) :
    handleJoin roomId myId roomId senderId senderName s =
      { s with
        remoteUserName := some senderName
        statusMessage := "Connecting to peer..."
        descCounter := s.descCounter + 1
        pc := some (setLocalDescription pc ⟨DescKind.offer, s.descCounter⟩)
        sent := (s.sent ++
          [Envelope.mediaStatus roomId MediaKind.audio (audioStatusValue s),
           Envelope.mediaStatus roomId MediaKind.video (videoStatusValue s),
           Envelope.screenShareStatus roomId s.isScreenSharing]) ++
          [Envelope.offer roomId senderId ⟨DescKind.offer, s.descCounter⟩] } := by
  unfold handleJoin ensurePC
  simp [hself, hrole, hpc, hcan, audioStatusValue, videoStatusValue]

/-- Counterexample to C1: the glare branch of handleOffer performs no role
check. In the concrete state c1State the local peer has identifier b, the
sender a, so the local peer IS the Caller (decideRole b a = Caller); yet on
receiving the incoming offer while in have-local-offer it does not ignore it:
it rolls back its own offer, applies the incoming offer as remote
description, and publishes an answer to it — the incoming offer wins on the
Caller side, contradicting the claim that the Caller side ignores the
incoming offer so that its own offer wins. -/
theorem C1_caller_accepts_incoming_offer :
    decideRole "b" "a" = Role.Caller ∧
    (handleOffer "r" "r" "a" ⟨DescKind.offer, 7⟩ c1State).pc =
      some ({ pcBase with
        signalingState := SigState.stable
        localDescription := some ⟨DescKind.answer, 1⟩
        remoteDescription := some ⟨DescKind.offer, 7⟩ }) ∧
    Envelope.answer "r" "a" ⟨DescKind.answer, 1⟩ ∈
      (handleOffer "r" "r" "a" ⟨DescKind.offer, 7⟩ c1State).sent := by
  refine ⟨decideRole_b_a_caller, ?_, ?_⟩ <;> decide

/-- C1 as amended: a peer that receives an offer envelope while its signaling
sub-state is have-local-offer rolls back its local offer and accepts the
incoming offer regardless of its role — Caller and Listener behave
identically, there is no polite-side check — and then produces, applies and
publishes an answer, ending stable with the incoming offer as its remote
description. The incoming offer wins on every receiving side. -/
theorem C1_glare_rollback_regardless_of_role (roomId senderId u : String)
    (s : HookState) (pc : PC) (d : Desc)
    (hk : d.kind = DescKind.offer)
    (hpc : s.pc = some pc)
    (hs : pc.signalingState = SigState.haveLocalOffer)
    (hn : s.remoteUserName = some u) :
    (handleOffer roomId roomId senderId d s).pc =
      some ({ pc with
        localDescription := some ⟨DescKind.answer, s.descCounter⟩
        remoteDescription := some d
        signalingState := SigState.stable }) ∧
    Envelope.answer roomId senderId ⟨DescKind.answer, s.descCounter⟩ ∈
      (handleOffer roomId roomId senderId d s).sent := by
  unfold handleOffer ensurePC processIceQueue
  unfold setRemoteDescription rollbackLocal setLocalDescription
  simp [hpc, hs, hn, hk]

/-- Witness for the amended C1 at a concrete glare state. -/
theorem C1_glare_rollback_regardless_of_role_witness :
    (handleOffer "r" "r" "a" ⟨DescKind.offer, 9⟩ c1State).pc =
      some ({ { pcBase with
          signalingState := SigState.haveLocalOffer
          localDescription := some ⟨DescKind.offer, 0⟩ } with
        localDescription := some ⟨DescKind.answer, 1⟩
        remoteDescription := some ⟨DescKind.offer, 9⟩
        signalingState := SigState.stable }) ∧
    Envelope.answer "r" "a" ⟨DescKind.answer, 1⟩ ∈
      (handleOffer "r" "r" "a" ⟨DescKind.offer, 9⟩ c1State).sent :=
  C1_glare_rollback_regardless_of_role "r" "a" "A" c1State
    ({ pcBase with
      signalingState := SigState.haveLocalOffer
      localDescription := some ⟨DescKind.offer, 0⟩ })
    ⟨DescKind.offer, 9⟩ rfl rfl rfl rfl

/-- Counterexample to C2: handling the same join announcement twice while
the Caller is already in have-local-offer publishes two offers created by
two separate createOffer calls (nonces 0 and 1), not the existing offer
verbatim — the duplicate join does produce a second, distinct offer
envelope. -/
theorem C2_duplicate_join_two_offers :
    Envelope.offer "r" "a" ⟨DescKind.offer, 0⟩ ∈
      (handleJoin "r" "b" "r" "a" "A" c2Mid).sent ∧
    Envelope.offer "r" "a" ⟨DescKind.offer, 1⟩ ∈
      (handleJoin "r" "b" "r" "a" "A" c2Mid).sent ∧
    (⟨DescKind.offer, 0⟩ : Desc) ≠ ⟨DescKind.offer, 1⟩ := by
  rw [handleJoin_reoffer_eq "r" "b" "a" "A" c2Mid c2MidPC (by decide)
    decideRole_b_a_caller rfl (by decide)]
  decide

/-- C2 as amended: on a duplicate join received while already in
have-local-offer (and with the connection not yet connected), the engine does
not ignore the join and does not re-send the stored offer verbatim: it calls
createOffer again, sets the freshly created offer as its local description
and publishes it, so the re-published offer is a new description distinct
from the stored one. -/
theorem C2_duplicate_join_reoffers
    (roomId myId payloadRoom senderId senderName : String)
    (s : HookState) (pc : PC) (d0 : Desc)
    (hroom : payloadRoom = roomId) (hself : senderId ≠ myId)
    (hrole : decideRole myId senderId = Role.Caller)
    (hpc : s.pc = some pc)
    (hcan : canOffer pc = true)
    (hd0 : pc.localDescription = some d0)
    (hfresh : d0.nonce < s.descCounter) :
    (handleJoin roomId myId payloadRoom senderId senderName s).pc =
      some (setLocalDescription pc ⟨DescKind.offer, s.descCounter⟩) ∧
    Envelope.offer roomId senderId ⟨DescKind.offer, s.descCounter⟩ ∈
      (handleJoin roomId myId payloadRoom senderId senderName s).sent ∧
    (⟨DescKind.offer, s.descCounter⟩ : Desc) ≠ d0 := by
  subst hroom
  rw [handleJoin_reoffer_eq _ myId senderId senderName s pc hself hrole
    hpc hcan]
  refine ⟨rfl, by simp, ?_⟩
  · intro hcontra
    have hnonce : d0.nonce = s.descCounter := by rw [← hcontra]
    omega

/-- Witness for the amended C2 at the concrete post-first-offer state. -/
theorem C2_duplicate_join_reoffers_witness :
    (handleJoin "r" "b" "r" "a" "A" c2Mid).pc =
      some (setLocalDescription c2MidPC ⟨DescKind.offer, 1⟩) ∧
    Envelope.offer "r" "a" ⟨DescKind.offer, 1⟩ ∈
      (handleJoin "r" "b" "r" "a" "A" c2Mid).sent ∧
    (⟨DescKind.offer, 1⟩ : Desc) ≠ ⟨DescKind.offer, 0⟩ :=
  C2_duplicate_join_reoffers "r" "b" "r" "a" "A" c2Mid c2MidPC
    ⟨DescKind.offer, 0⟩ rfl (by decide) decideRole_b_a_caller rfl (by decide)
    rfl (by decide)

/-- Counterexample to C6: handleRemoteLeave does not reset the remote media
state to its defaults (microphone on, camera on, screen share off). In the
concrete mid-call state c6St the remote peer had reported microphone off,
camera off and screen sharing on, and after the leave notification those
three flags keep their stale values instead of returning to the defaults. -/
theorem C6_remote_media_not_reset :
    (handleRemoteLeave "r" "B" "r" c6St).remoteIsMicOn = false ∧
    (handleRemoteLeave "r" "B" "r" c6St).remoteIsCameraOn = false ∧
    (handleRemoteLeave "r" "B" "r" c6St).remoteIsScreenSharing = true := by
  decide

/-- C6 as amended: on a leave notification the session is force-closed (the
peer connection is dropped), the candidate buffer is cleared, the remote
identity forgotten, the connectivity state set to disconnected, and the
discovery loop restarts (announcing presence again) when no discovery
interval is running and the local participant is still room-resident; the
remote media-status flags, however, are left exactly as they were — they are
not reset to their defaults. -/
theorem C6_leave_cleanup (roomId userName payloadRoom : String)
    (s : HookState) (h : payloadRoom = roomId) :
    (handleRemoteLeave roomId userName payloadRoom s).pc = none ∧
    (handleRemoteLeave roomId userName payloadRoom s).iceCandidatesQueue = [] ∧
    (handleRemoteLeave roomId userName payloadRoom s).remoteUserName = none ∧
    (handleRemoteLeave roomId userName payloadRoom s).connectionState =
      IceState.disconnected ∧
    ((!s.discoveryRunning && s.isInRoom) = true →
      (handleRemoteLeave roomId userName payloadRoom s).discoveryRunning =
        true ∧
      Envelope.join roomId userName ∈
        (handleRemoteLeave roomId userName payloadRoom s).sent) ∧
    (handleRemoteLeave roomId userName payloadRoom s).remoteIsMicOn =
      s.remoteIsMicOn ∧
    (handleRemoteLeave roomId userName payloadRoom s).remoteIsCameraOn =
      s.remoteIsCameraOn ∧
    (handleRemoteLeave roomId userName payloadRoom s).remoteIsScreenSharing =
      s.remoteIsScreenSharing := by
  subst h
  unfold handleRemoteLeave startDiscovery
  by_cases hd : (!s.discoveryRunning && s.isInRoom) = true <;> simp [hd]

/-- Witness for the amended C6 at the concrete mid-call state, where the
discovery restart condition holds. -/
theorem C6_leave_cleanup_witness :
    (handleRemoteLeave "r" "B" "r" c6St).pc = none ∧
    (handleRemoteLeave "r" "B" "r" c6St).iceCandidatesQueue = [] ∧
    (handleRemoteLeave "r" "B" "r" c6St).discoveryRunning = true ∧
    Envelope.join "r" "B" ∈ (handleRemoteLeave "r" "B" "r" c6St).sent ∧
    (handleRemoteLeave "r" "B" "r" c6St).remoteIsMicOn = c6St.remoteIsMicOn :=
  ⟨(C6_leave_cleanup "r" "B" "r" c6St rfl).1,
   (C6_leave_cleanup "r" "B" "r" c6St rfl).2.1,
   ((C6_leave_cleanup "r" "B" "r" c6St rfl).2.2.2.2.1 rfl).1,
   ((C6_leave_cleanup "r" "B" "r" c6St rfl).2.2.2.2.1 rfl).2,
   (C6_leave_cleanup "r" "B" "r" c6St rfl).2.2.2.2.2.1⟩

/-- The quality to bitrate-cap mapping gives no cap for every quality of four
or more. -/
theorem maxBitrateForQuality_ge_four (q : Nat) (h : 4 ≤ q) :
    maxBitrateForQuality q = none := by
  unfold maxBitrateForQuality
  have h0 : q ≠ 0 := by omega
  have h1 : q ≠ 1 := by omega
  have h2 : q ≠ 2 := by omega
  have h3 : q ≠ 3 := by omega
  simp [h0, h1, h2, h3]

/-- Every bitrate cap is below the absent cap. -/
theorem capLE_none (a : Option Nat) : capLE a none = true := by
  cases a <;> rfl

/-- C7: the quality score is non-increasing in the sampled round-trip time
and drops by exactly one as the RTT crosses each of the three fixed
thresholds upward (4 below 0.1, then 3, 2, 1); a disconnected sample scores
0; and the outgoing maximum-bitrate cap applied to the video sender is
monotonically non-decreasing in the quality score, updateBitrate writing
exactly that cap whenever a video sender exists. -/
theorem C7_quality_score_bitrate :
    (∀ r1 r2 : ℚ, r1 ≤ r2 → rttScore r2 ≤ rttScore r1) ∧
    (∀ r : ℚ,
      (r ≤ 1/10 → rttScore r = 4) ∧
      (1/10 < r → r ≤ 3/10 → rttScore r = 3) ∧
      (3/10 < r → r ≤ 5/10 → rttScore r = 2) ∧
      (5/10 < r → rttScore r = 1)) ∧
    (∀ r : ℚ, sampleScore false r = 0) ∧
    (∀ q1 q2 : Nat, q1 ≤ q2 →
      capLE (maxBitrateForQuality q1) (maxBitrateForQuality q2) = true) ∧
    (∀ (pc : PC) (q : Nat), pc.videoSenderTrack.isSome = true →
      (updateBitrate pc q).videoSenderMaxBitrate = maxBitrateForQuality q) := by
  refine ⟨?_, ?_, ?_, ?_, ?_⟩
  · intro r1 r2 h
    unfold rttScore
    split_ifs <;> first | rfl | omega | linarith
  · intro r
    refine ⟨?_, ?_, ?_, ?_⟩
    · intro h1
      unfold rttScore
      split_ifs <;> first | rfl | linarith
    · intro h1 h2
      unfold rttScore
      split_ifs <;> first | rfl | linarith
    · intro h1 h2
      unfold rttScore
      split_ifs <;> first | rfl | linarith
    · intro h1
      unfold rttScore
      split_ifs <;> first | rfl | linarith
  · intro r
    rfl
  · intro q1 q2 h
    rcases Nat.lt_or_ge q1 4 with h1 | h1
    · rcases Nat.lt_or_ge q2 4 with h2 | h2
      · interval_cases q1 <;> interval_cases q2 <;> first | decide | omega
      · rw [maxBitrateForQuality_ge_four q2 h2]
        exact capLE_none _
    · have h2 : 4 ≤ q2 := le_trans h1 h
      rw [maxBitrateForQuality_ge_four q2 h2]
      exact capLE_none _
  · intro pc q h
    unfold updateBitrate
    rcases hv : pc.videoSenderTrack with _ | t
    · rw [hv] at h
      simp at h
    · simp [hv]

/-- Witness for C7: concrete samples on both sides of the first threshold,
a disconnected sample, a concrete cap comparison, and a concrete
updateBitrate application. -/
theorem C7_quality_score_bitrate_witness :
    rttScore (2/10) ≤ rttScore (1/20) ∧
    rttScore (1/20) = 4 ∧
    sampleScore false (2/10) = 0 ∧
    capLE (maxBitrateForQuality 1) (maxBitrateForQuality 3) = true ∧
    (updateBitrate { pcBase with videoSenderTrack := some camTrack } 2
      ).videoSenderMaxBitrate = maxBitrateForQuality 2 :=
  ⟨C7_quality_score_bitrate.1 (1/20) (2/10) (by norm_num),
   (C7_quality_score_bitrate.2.1 (1/20)).1 (by norm_num),
   C7_quality_score_bitrate.2.2.1 (2/10),
   C7_quality_score_bitrate.2.2.2.1 1 3 (by norm_num),
   C7_quality_score_bitrate.2.2.2.2
     { pcBase with videoSenderTrack := some camTrack } 2 rfl⟩

/-- C8: starting and then stopping screen share is a round trip. With a
camera track on the video sender, toggling screen share twice restores the
peer connection exactly (the original outgoing video track is back on the
sender via track substitution), leaves the audio track and the audio sender
untouched, creates no session description (no renegotiation: the description
counter is unchanged and only status envelopes are published), and publishes
a screen-share-status envelope on both transitions. -/
theorem C8_screen_share_round_trip (roomId : String) (s : HookState)
    (pc : PC) (vt ta sc : Track)
    (hss : s.isScreenSharing = false)
    (hpc : s.pc = some pc)
    (hvt : s.localVideoTrack = some vt)
    (hat : s.localAudioTrack = some ta)
    (hsend : pc.videoSenderTrack = some vt) :
    (toggleScreenShare roomId sc (toggleScreenShare roomId sc s)).pc = s.pc ∧
    (toggleScreenShare roomId sc (toggleScreenShare roomId sc s)
      ).localAudioTrack = s.localAudioTrack ∧
    (toggleScreenShare roomId sc (toggleScreenShare roomId sc s)
      ).localVideoTrack = s.localVideoTrack ∧
    (toggleScreenShare roomId sc (toggleScreenShare roomId sc s)
      ).isScreenSharing = false ∧
    (toggleScreenShare roomId sc (toggleScreenShare roomId sc s)
      ).screenTrack = none ∧
    (toggleScreenShare roomId sc (toggleScreenShare roomId sc s)
      ).descCounter = s.descCounter ∧
    (toggleScreenShare roomId sc (toggleScreenShare roomId sc s)).sent =
      s.sent ++
        [Envelope.mediaStatus roomId MediaKind.video true,
         Envelope.screenShareStatus roomId true,
         Envelope.screenShareStatus roomId false,
         Envelope.mediaStatus roomId MediaKind.video vt.enabled] := by
  obtain ⟨pc1, pc2, pc3, pc4, pc5, pc6, pc7⟩ := pc
  simp only at hsend
  subst hsend
  unfold toggleScreenShare stopScreenSharing
  simp [hss, hpc, hvt, hat]

/-- Witness for C8 at the concrete connected state with camera and
microphone on the senders. -/
theorem C8_screen_share_round_trip_witness :
    (toggleScreenShare "r" screenCap (toggleScreenShare "r" screenCap c8St)
      ).pc = c8St.pc ∧
    (toggleScreenShare "r" screenCap (toggleScreenShare "r" screenCap c8St)
      ).localAudioTrack = c8St.localAudioTrack ∧
    (toggleScreenShare "r" screenCap (toggleScreenShare "r" screenCap c8St)
      ).localVideoTrack = c8St.localVideoTrack ∧
    (toggleScreenShare "r" screenCap (toggleScreenShare "r" screenCap c8St)
      ).isScreenSharing = false ∧
    (toggleScreenShare "r" screenCap (toggleScreenShare "r" screenCap c8St)
      ).screenTrack = none ∧
    (toggleScreenShare "r" screenCap (toggleScreenShare "r" screenCap c8St)
      ).descCounter = c8St.descCounter ∧
    (toggleScreenShare "r" screenCap (toggleScreenShare "r" screenCap c8St)
      ).sent =
      c8St.sent ++
        [Envelope.mediaStatus "r" MediaKind.video true,
         Envelope.screenShareStatus "r" true,
         Envelope.screenShareStatus "r" false,
         Envelope.mediaStatus "r" MediaKind.video camTrack.enabled] :=
  C8_screen_share_round_trip "r" c8St
    { pcBase with
      videoSenderTrack := some camTrack
      audioSenderTrack := some micTrack }
    camTrack micTrack screenCap rfl rfl rfl rfl rfl

/-- C9: when a local video track exists, toggleCamera always flips the track
enabled flag and the local camera state; while screen sharing is active it
publishes no envelope at all (the remote side is not told), and only when
screen sharing is inactive does it publish the video media-status
envelope. -/
theorem C9_no_video_status_during_screen_share (roomId : String)
    (s : HookState) (vt : Track) (hvt : s.localVideoTrack = some vt) :
    (s.isScreenSharing = true →
      toggleCamera roomId s =
        { s with
          localVideoTrack := some { vt with enabled := !s.isCameraOn }
          isCameraOn := !s.isCameraOn }) ∧
    (s.isScreenSharing = false →
      toggleCamera roomId s =
        { s with
          localVideoTrack := some { vt with enabled := !s.isCameraOn }
          isCameraOn := !s.isCameraOn
          sent := s.sent ++
            [Envelope.mediaStatus roomId MediaKind.video (!s.isCameraOn)] }) := by
  constructor <;> intro h <;> unfold toggleCamera <;> simp [hvt, h]

/-- Witness for C9 at the concrete screen-sharing state: the camera flag and
track flip but the envelope trace is unchanged. -/
theorem C9_no_video_status_during_screen_share_witness :
    toggleCamera "r" c9St =
      { c9St with
        localVideoTrack := some { camTrack with enabled := !c9St.isCameraOn }
        isCameraOn := !c9St.isCameraOn } :=
  (C9_no_video_status_during_screen_share "r" c9St camTrack rfl).1 rfl

/-- C10: with no local audio track, toggleMic is a complete no-op — the
state, including the mic flag and the envelope trace, is returned unchanged;
with a local audio track present it flips the track enabled flag and the mic
flag and publishes the audio media-status envelope. -/
theorem C10_toggle_mic_requires_track (roomId : String) (s : HookState) :
    (s.localAudioTrack = none → toggleMic roomId s = s) ∧
    (∀ ta : Track, s.localAudioTrack = some ta →
      toggleMic roomId s =
        { s with
          localAudioTrack := some { ta with enabled := !s.isMicOn }
          isMicOn := !s.isMicOn
          sent := s.sent ++
            [Envelope.mediaStatus roomId MediaKind.audio (!s.isMicOn)] }) := by
  constructor
  · intro h
    unfold toggleMic
    simp [h]
  · intro ta h
    unfold toggleMic
    simp [h]

/-- Witness for C10 in the initial state, where no audio track exists yet. -/
theorem C10_toggle_mic_requires_track_witness :
    toggleMic "r" initialHookState = initialHookState :=
  (C10_toggle_mic_requires_track "r" initialHookState).1 rfl
